import Mathlib

/-!
Verification development for the lccfq-lang compilation library.

The Python source is shallowly embedded: classes become structures,
methods become functions, raised exceptions become `Except` errors,
and `dict`s become association lists (Python dicts preserve insertion
order, as do association lists).  Floating-point numbers are embedded
as an abstract linearly ordered field `F`; the transcendental
operations used by the state-preparation module (`abs`, `sqrt`,
`atan2`, `angle`, polar construction) are taken as parameters, so every
theorem below holds for the actual IEEE semantics as one instantiation.
The float literal `1e-15` is modelled as `1/10^15` and `numpy.pi` as an
explicit parameter `pi` of the transpilation table.
-/

namespace LCCFQ

/-- Typed failure taxonomy of the library (arch/error.py, mach/error.py,
sys/error.py) together with the built-in Python exceptions that the code
can raise (`KeyError` from bare dict indexing, `ValueError`,
`ZeroDivisionError`). -/
inductive PyErr where
  | malformedInstruction
  | notAllowedInContext
  | unknownInstruction
  | unknownCompilerPass (cpass : String)
  | notEnoughQubits
  | qubitsNotConnected (qa qb : Int)
  | badTopologyType
  | insufficientGoodQubits
  | badQPUConfiguration
  | noMeasurementsAvailable
  | keyError (key : String)
  | valueError
  | zeroDivisionError
  deriving DecidableEq, Repr

/-- An exception raised by the user's own code inside a `with` scope body.
Distinct from the library's typed errors. -/
inductive UserExc where
  | exc
  deriving DecidableEq, Repr

/-- Modelled from the spec: §3 gives `kind ∈ {DELAYED, CIRCUIT, TEST,
QPUSTATE}`.  The `instruction.py` checked into the repository is a stale
legacy revision whose enum lacks `TEST` and `QPUSTATE`, yet `isa.py`,
`register.py`, `mapping.py` and the whole test-suite reference those two
members, so the current definition is missing from the source tree and is
reconstructed here from the spec and from its uses. -/
inductive InstructionType where
  | DELAYED
  | CIRCUIT
  | TEST
  | QPUSTATE
  deriving DecidableEq, Repr

/-- Context under which an instruction is challenged (register.py,
`QContext`). -/
inductive QContext where
  | CIRCUIT
  | TEST
  | CONTROL
  | UNKNOWN
  deriving DecidableEq, Repr

/-- Modelled from the spec: the high-level IR record of §3, matching the
constructor keywords used by `isa.py`, `topology.py` and `mapping.py`
(the stale `instruction.py` in the tree disagrees with all of its
callers).  `F` is the scalar type standing for Python floats.  Field
defaults mirror `Instruction.__init__` (`instruction_type` is set to
`DELAYED` in the constructor body, `is_mapped` to `False`).  The `pre` /
`post` Hoare-witness sets are carried opaquely by the source and never
read by any operation verified here, so they are omitted. -/
structure Instruction (F : Type) where
  symbol : String
  instruction_type : InstructionType := .DELAYED
  is_native : Bool := false
  modifies_state : Bool := true
  is_controlled : Bool := false
  is_mapped : Bool := false
  target_qubits : Option (List Int) := none
  control_qubits : Option (List Int) := none
  parameters : Option (List F) := none
  shots : Option Int := none
  deriving DecidableEq, Repr

/-- Native IR gate record (mach/ir.py, `Gate`). -/
structure Gate (F : Type) where
  symbol : String
  target_qubits : Option (List Int)
  control_qubits : Option (List Int)
  params : Option (List F)
  deriving DecidableEq, Repr

/-! ## ISA builders (arch/isa.py)

The source attaches builders to the `ISA` class reflectively from lists
of symbol names (`sq_nopar_gates`, `sq_par_gates`, `tqc_nopar_gates`,
`tqc_par_gates`, `tests` decorators); each family shares one body, which
is embedded as one function per family. -/

variable {F : Type}

/-- Builder body produced by the `sq_nopar_gates` decorator. -/
def sqNoparGate (gate_name : String) (tg : Int) (shots : Option Int := none) :
    Instruction F :=
  { symbol := gate_name
    modifies_state := false
    is_controlled := false
    target_qubits := some [tg]
    control_qubits := none
    parameters := none
    shots := shots }

/-- Builder body produced by the `sq_par_gates` decorator. -/
def sqParGate (gate_name : String) (tg : Int) (params : Option (List F) := none)
    (shots : Option Int := none) : Instruction F :=
  { symbol := gate_name
    modifies_state := false
    is_controlled := false
    target_qubits := some [tg]
    control_qubits := none
    parameters := params
    shots := shots }

/-- Builder body produced by the `tqc_nopar_gates` decorator. -/
def tqcNoparGate (gate_name : String) (ct : Int) (tg : Int)
    (shots : Option Int := none) : Instruction F :=
  { symbol := gate_name
    modifies_state := false
    is_controlled := true
    target_qubits := some [tg]
    control_qubits := some [ct]
    parameters := none
    shots := shots }

/-- Builder body produced by the `tqc_par_gates` decorator. -/
def tqcParGate (gate_name : String) (ct : Int) (tg : Int)
    (params : Option (List F) := none) (shots : Option Int := none) :
    Instruction F :=
  { symbol := gate_name
    modifies_state := false
    is_controlled := true
    target_qubits := some [tg]
    control_qubits := some [ct]
    parameters := params
    shots := shots }

/-- Builder body produced by the `tests` decorator; sets
`instruction_type = TEST` after construction. -/
def testGate (gate_name : String) (tgs : Option (List Int) := none)
    (params : Option (List F) := none) (shots : Option Int := none) :
    Instruction F :=
  { symbol := gate_name
    instruction_type := .TEST
    modifies_state := false
    is_controlled := false
    target_qubits := tgs
    control_qubits := none
    parameters := params
    shots := shots }

/-- Symbols given to the `sq_nopar_gates` decorator. -/
def sqNoparNames : List String := ["x", "y", "z", "h", "s", "sdg", "t", "tdg"]

/-- Symbols given to the `sq_par_gates` decorator. -/
def sqParNames : List String := ["p", "rx", "ry", "rz", "phase", "u2", "u3"]

/-- Symbols given to the `tqc_nopar_gates` decorator. -/
def tqcNoparNames : List String := ["cx", "cy", "cz", "ch"]

/-- Symbols given to the `tqc_par_gates` decorator. -/
def tqcParNames : List String := ["cp", "crx", "cry", "crz", "cphase", "cu"]

/-- Symbols given to the `tests` decorator. -/
def testNames : List String :=
  ["resfreq", "satspect", "powrab", "pispec", "resspect", "dispshift", "rocalib"]

/-- `ISA.swap(tg_a, tg_b)` — the first operand is stored in
`control_qubits` and the second in `target_qubits` (the topology routing
calls it as `swap(ct=path[i], tg=path[i+1])`, which the legacy keyword
branch maps to `tg_a = ct`, `tg_b = tg`). -/
def isaSwap (tg_a : Int) (tg_b : Int) : Instruction F :=
  { symbol := "swap"
    modifies_state := false
    is_controlled := false
    target_qubits := some [tg_b]
    control_qubits := some [tg_a]
    parameters := none
    shots := none }

/-- `ISA.nop(tgs)`; the type is set to `DELAYED` explicitly. -/
def isaNop (tgs : Option (List Int) := none) : Instruction F :=
  { symbol := "nop"
    instruction_type := .DELAYED
    modifies_state := false
    is_controlled := false
    target_qubits := tgs
    control_qubits := none
    parameters := none
    shots := none }

/-- `ISA.measure(tgs)`; modifies state and is created as `CIRCUIT`. -/
def isaMeasure (tgs : Option (List Int) := none) : Instruction F :=
  { symbol := "measure"
    instruction_type := .CIRCUIT
    modifies_state := true
    is_controlled := false
    target_qubits := tgs
    control_qubits := none
    parameters := none
    shots := none }

/-- `ISA.reset(tgs)`; modifies state and stays `DELAYED`. -/
def isaReset (tgs : Option (List Int) := none) : Instruction F :=
  { symbol := "reset"
    instruction_type := .DELAYED
    modifies_state := true
    is_controlled := false
    target_qubits := tgs
    control_qubits := none
    parameters := none
    shots := none }

/-- `ISA.ftol(threshold_fidelity)`; a `QPUSTATE` control instruction with
the threshold wrapped as a one-element parameter list. -/
def isaFtol (threshold_fidelity : F) : Instruction F :=
  { symbol := "ftol"
    instruction_type := .QPUSTATE
    modifies_state := true
    is_controlled := false
    target_qubits := none
    control_qubits := none
    parameters := some [threshold_fidelity]
    shots := none }

/-! ## Well-formedness and challenge (arch/register.py) -/

/-- `QRegister._is_well_formed_instruction` as a Boolean acceptance test
(the source raises `MalformedInstruction` with a message on the first
failed check; here `false` stands for raising).  The `isinstance` checks
on lists, ints and floats are guaranteed by the embedding's types; a
`None` field models a value that is not a list. -/
def isWellFormedInstruction (i : Instruction F) : Bool :=
  (i.symbol ≠ "" : Bool) &&
  (match i.target_qubits with
   | some ts => if ts.isEmpty then decide (i.instruction_type = .QPUSTATE) else true
   | none => decide (i.instruction_type = .QPUSTATE)) &&
  ((i.target_qubits.getD []).all fun q => decide (0 ≤ q)) &&
  (if i.is_controlled then
     (match i.control_qubits with
      | some cs => !cs.isEmpty
      | none => false) &&
     ((i.control_qubits.getD []).all fun q => decide (0 ≤ q)) &&
     ((i.control_qubits.getD []).all fun q => !(i.target_qubits.getD []).contains q)
   else true) &&
  (match i.shots with
   | some s => decide (0 < s)
   | none => true)

/-- The §3 invariant list (1–7), written from the spec's words to compare
builder outputs against: (1) disjointness when both operand lists are
present, (2) non-negative indices, (3) `is_controlled` implies non-empty
controls, (4) parameters are reals (guaranteed by the type), (5) `shots`
strictly positive when present, (6) `TEST` kind requires `shots`,
(7) a `CIRCUIT`-kind instruction has no `shots`. -/
def spec3Invariants (i : Instruction F) : Bool :=
  (match i.target_qubits, i.control_qubits with
   | some ts, some cs => ts.all fun q => !cs.contains q
   | _, _ => true) &&
  ((i.target_qubits.getD []).all fun q => decide (0 ≤ q)) &&
  ((i.control_qubits.getD []).all fun q => decide (0 ≤ q)) &&
  (!i.is_controlled || !(i.control_qubits.getD []).isEmpty) &&
  (match i.shots with
   | some s => decide (0 < s)
   | none => true) &&
  (!(decide (i.instruction_type = InstructionType.TEST)) || i.shots.isSome) &&
  (!(decide (i.instruction_type = InstructionType.CIRCUIT)) || i.shots.isNone)

/-- `QRegister.challenge(instruction, context)`: well-formedness check,
deep copy (value semantics make the copy implicit), then context rules.
Returns the validated copy; errors model the raised exceptions. -/
def challenge (instruction : Instruction F) (context : QContext) :
    Except PyErr (Instruction F) :=
  if ¬ isWellFormedInstruction instruction then .error .malformedInstruction
  else
    match context with
    | .CIRCUIT =>
      if instruction.instruction_type = .QPUSTATE ∨
         instruction.instruction_type = .TEST then
        .error .notAllowedInContext
      else
        .ok { instruction with instruction_type := .CIRCUIT, shots := none }
    | .TEST =>
      if instruction.instruction_type = .QPUSTATE then
        .error .notAllowedInContext
      else if instruction.shots = none then
        .error .malformedInstruction
      else
        .ok { instruction with instruction_type := .TEST }
    | _ =>
      .ok { instruction with instruction_type := .QPUSTATE }

/-! ## Classical register (arch/register.py, `CRegister`) -/

/-- Python's true division on the counts: raises `ZeroDivisionError` on a
zero denominator, so the embedding returns `Except`.  Rationals model the
exact values. -/
def pydiv (a b : ℚ) : Except PyErr ℚ :=
  if b = 0 then .error .zeroDivisionError else .ok (a / b)

/-- The dict comprehension `{k: v / total for k, v in self.data.items()}`
of `CRegister.frequencies`, entry by entry; any failing division aborts
with its error. -/
def freqLoop (d : List (String × Int)) (T : ℚ) :
    Except PyErr (List (String × ℚ)) :=
  match d with
  | [] => .ok []
  | p :: rest =>
    match pydiv (p.2 : ℚ) T with
    | .error e => .error e
    | .ok q =>
      match freqLoop rest T with
      | .error e => .error e
      | .ok qs => .ok ((p.1, q) :: qs)

/-- `CRegister.frequencies`: `data = None` means no `absorb` happened yet;
otherwise divide each count by the total unless the total is zero. -/
def frequencies (data : Option (List (String × Int))) :
    Except PyErr (List (String × ℚ)) :=
  match data with
  | none => .error .noMeasurementsAvailable
  | some d =>
    let total : Int := (d.map (·.2)).sum
    if total = 0 then
      .ok (d.map fun p => (p.1, (0 : ℚ)))
    else
      freqLoop d (total : ℚ)

/-! ## Circuit and Test contexts (arch/context.py) -/

/-- `format(i, f"0{w}b")`: big-endian binary digits of `i`, left-padded
with zeros to width `w` (Python keeps all digits if there are more than
`w`). -/
def pyBinFormat (w : Nat) (i : Nat) : String :=
  let digits := Nat.toDigits 2 i
  ⟨List.replicate (w - digits.length) '0' ++ digits⟩

/-- The sentinel count map absorbed for every non-`executed` terminal
pass: `{format(i, f"0{bit_count}b"): -1 for i in range(2 ** bit_count)}`. -/
def sentinelMap (bit_count : Nat) : List (String × Int) :=
  (List.range (2 ^ bit_count)).map fun i => (pyBinFormat bit_count i, (-1 : Int))

/-- A program handed to `_handle_pass`: either instructions (early passes)
or native gates (transpiled/executed). -/
def PyProgram (F : Type) := List (Instruction F) ⊕ List (Gate F)

/-- `Circuit._handle_pass`: call the backend for `executed`, otherwise
produce the sentinel map; the result is absorbed by the classical
register. -/
def handlePass (execCircuit : PyProgram F → Int → Except PyErr (List (String × Int)))
    (shots : Int) (bit_count : Nat) (program : PyProgram F) (cpass : String) :
    Except PyErr (List (String × Int)) :=
  if cpass = "executed" then execCircuit program shots
  else .ok (sentinelMap bit_count)

/-- `Circuit.__rshift__`: challenge the instruction under the CIRCUIT
context, then append — the source appends the original `instr`, not the
copy returned by `challenge` (whose result is discarded). -/
def circuitRshift (instructions : List (Instruction F)) (instr : Instruction F) :
    Except PyErr (List (Instruction F)) := do
  let _ ← challenge instr .CIRCUIT
  .ok (instructions ++ [instr])

/-- `Test.__rshift__`: same pattern under the TEST context; the
challenged copy is discarded and the original appended. -/
def testRshift (instructions : List (Instruction F)) (instr : Instruction F) :
    Except PyErr (List (Instruction F)) := do
  let _ ← challenge instr .TEST
  .ok (instructions ++ [instr])

/-- Flatten an effectful map, modelling
`list(chain.from_iterable(map(f, xs)))` where `f` may raise. -/
def flatMapE (f : α → Except PyErr (List β)) (xs : List α) :
    Except PyErr (List β) := do
  let ls ← xs.mapM f
  .ok ls.flatten

/-- `Circuit.__exit__`.  The pipeline collaborators (`map`, `swaps`,
`expand`, `transpile_gate`, `exec_circuit`) are parameters, mirroring the
forwarding through `qreg`/`qpu`.  `excInfo` carries the exception raised
by the scope body, which the source never inspects.  The result pairs
the method's return value (`true` — which makes Python suppress any body
exception) with the final contents of the classical register.  Note the
source routes over `self.instructions` (the parsed list), not the mapped
list. -/
def circuitExit
    (mapF : Instruction F → Except PyErr (Instruction F))
    (swapsF : Instruction F → Except PyErr (List (Instruction F)))
    (expandF : Instruction F → Except PyErr (List (Instruction F)))
    (transpileF : Instruction F → Except PyErr (List (Gate F)))
    (execCircuit : PyProgram F → Int → Except PyErr (List (String × Int)))
    (shots : Int) (bit_count : Nat) (last_pass : String)
    (instructions : List (Instruction F)) (excInfo : Option UserExc) :
    Except PyErr (Bool × List (String × Int)) :=
  let _ := excInfo
  if last_pass = "parsed" then
    match handlePass execCircuit shots bit_count (.inl instructions) last_pass with
    | .error e => .error e
    | .ok data => .ok (true, data)
  else
    match instructions.mapM mapF with
    | .error e => .error e
    | .ok mapped =>
      if last_pass = "mapped" then
        match handlePass execCircuit shots bit_count (.inl mapped) last_pass with
        | .error e => .error e
        | .ok data => .ok (true, data)
      else
        match flatMapE swapsF instructions with
        | .error e => .error e
        | .ok swapped =>
          if last_pass = "swapped" then
            match handlePass execCircuit shots bit_count (.inl swapped) last_pass with
            | .error e => .error e
            | .ok data => .ok (true, data)
          else
            match flatMapE expandF swapped with
            | .error e => .error e
            | .ok expanded =>
              if last_pass = "expanded" then
                match handlePass execCircuit shots bit_count (.inl expanded) last_pass with
                | .error e => .error e
                | .ok data => .ok (true, data)
              else
                match flatMapE transpileF expanded with
                | .error e => .error e
                | .ok transpiled =>
                  if last_pass = "transpiled" then
                    match handlePass execCircuit shots bit_count (.inr transpiled) last_pass with
                    | .error e => .error e
                    | .ok data => .ok (true, data)
                  else if last_pass = "executed" then
                    match handlePass execCircuit shots bit_count (.inr transpiled) last_pass with
                    | .error e => .error e
                    | .ok data => .ok (true, data)
                  else
                    .error (.unknownCompilerPass last_pass)

/-- `Test.__exit__`: dispatch every accumulated instruction to the
backend's single-instruction endpoint, storing each result under its
index; the body's exception (`excInfo`) is never inspected.  The method
returns `None`, which is falsy, so the second component is `false` (no
suppression) — but the dispatch loop has already run. -/
def testExit {R : Type}
    (execSingle : Instruction F → Option Int → Except PyErr R)
    (instructions : List (Instruction F)) (accum : List (Nat × R))
    (excInfo : Option UserExc) :
    Except PyErr (List (Nat × R) × Bool) := do
  let _ := excInfo
  let results ← instructions.mapM fun i => execSingle i i.shots
  .ok (accum ++ results.enum, false)

/-! ## Topology (mach/topology.py)

The connectivity graph is `networkx.Graph`: an undirected simple graph
whose node set is exactly the endpoints of the edges added.  It is
embedded as the list of edges in insertion order with duplicate
(unordered) edges dropped, which determines node order and adjacency
order the way `nx.Graph` does. -/

/-- The `[qpu]` configuration fields consumed by `QPUTopology`
(sys/base.py, `QPUConfig`); couplings are two-element index lists. -/
structure QPUConfigT where
  topology : String
  qubits : List Int
  couplings : List (List Int)
  exclusions : List Int
  deriving DecidableEq, Repr

/-- Python's `min` on a list (only ever called on a non-empty list; the
default is unreachable). -/
def pyMin (l : List Int) : Int :=
  match l with
  | [] => 0
  | x :: xs => xs.foldl min x

/-- `QPUTopology.__remove_exclusions`: in linear mode, keep only the
qubits strictly below the smallest exclusion; otherwise plain set
difference. -/
def removeExclusions (config : QPUConfigT) : List Int :=
  if config.topology = "linear" then
    if config.exclusions = [] then config.qubits
    else config.qubits.filter fun q => q < pyMin config.exclusions
  else
    config.qubits.filter fun q => q ∉ config.exclusions

/-- `QPUTopology.__filter_connections`: drop only the couplings that
contain the minimum excluded index. -/
def filterConnections (config : QPUConfigT) : List (List Int) :=
  if config.exclusions = [] then config.couplings
  else config.couplings.filter fun c => pyMin config.exclusions ∉ c

/-- Undirected edge list with `nx.Graph` deduplication. -/
abbrev EdgeList := List (Int × Int)

/-- `nx.Graph.add_edge`: ignore an edge already present in either
orientation. -/
def addEdge (g : EdgeList) (u v : Int) : EdgeList :=
  if g.any (fun e => (e.1 = u ∧ e.2 = v) ∨ (e.1 = v ∧ e.2 = u)) then g
  else g ++ [(u, v)]

/-- Build the graph from the filtered couplings (`for u, v in
real_connections: add_edge(u, v)`). -/
def graphOfConnections (connections : List (List Int)) : EdgeList :=
  connections.foldl (fun g c => addEdge g (c.getD 0 0) (c.getD 1 0)) []

/-- Nodes of the graph in first-appearance order (the key set of the
`nx.Graph` adjacency dict). -/
def graphNodes (g : EdgeList) : List Int :=
  g.foldl (fun ns e =>
    let ns := if e.1 ∈ ns then ns else ns ++ [e.1]
    if e.2 ∈ ns then ns else ns ++ [e.2]) []

/-- `nx.Graph.has_edge` (undirected). -/
def hasEdge (g : EdgeList) (u v : Int) : Bool :=
  g.any fun e => (e.1 = u ∧ e.2 = v) ∨ (e.1 = v ∧ e.2 = u)

/-- Neighbors of `v` in edge-insertion order. -/
def neighbors (g : EdgeList) (v : Int) : List Int :=
  g.filterMap fun e =>
    if e.1 = v then some e.2 else if e.2 = v then some e.1 else none

/-- Degree of a node (the configurations verified here have no
self-loops, where `nx` would count twice). -/
def degree (g : EdgeList) (v : Int) : Nat :=
  (neighbors g v).length

/-- Nodes reachable from the frontier within `fuel` expansion steps. -/
def reachAux (g : EdgeList) : Nat → List Int → List Int → List Int
  | 0, _, visited => visited
  | _ + 1, [], visited => visited
  | fuel + 1, v :: frontier, visited =>
    if v ∈ visited then reachAux g fuel frontier visited
    else reachAux g fuel (frontier ++ neighbors g v) (visited ++ [v])

/-- `nx.is_connected`: every node is reachable from the first node.  The
source guards the empty graph before calling it, so the `[]` case is
unreachable. -/
def isConnected (g : EdgeList) : Bool :=
  match graphNodes g with
  | [] => false
  | v :: rest =>
    let reach := reachAux g ((graphNodes g).length * (g.length + 1) + 1) [v] []
    (v :: rest).all fun n => n ∈ reach

/-- `QPUTopology.__test_linear`: non-empty, connected, `|E| = |V| − 1`,
exactly two nodes of degree 1 and the rest of degree 2. -/
def testLinear (g : EdgeList) : Bool :=
  if (graphNodes g).length = 0 then false
  else if ¬ isConnected g then false
  else if g.length ≠ (graphNodes g).length - 1 then false
  else
    let degs := (graphNodes g).map (degree g)
    decide (degs.count 1 = 2) && decide (degs.count 2 = (graphNodes g).length - 2)

/-- The constructed topology: usable qubits, filtered couplings and the
connectivity graph. -/
structure QPUTopologyR where
  real_qubits : List Int
  real_connections : List (List Int)
  graph : EdgeList
  deriving Repr

/-- `QPUTopology.__init__`: recognize the declared type (only "linear"
is registered), apply the exclusion filters, build the graph, then
validate the structural invariant, raising `BadTopologyType` on
failure. -/
def mkTopology (config : QPUConfigT) : Except PyErr QPUTopologyR :=
  if config.topology ≠ "linear" then .error .badTopologyType
  else
    let real_qubits := removeExclusions config
    let real_connections := filterConnections config
    let g := graphOfConnections real_connections
    if testLinear g then .ok ⟨real_qubits, real_connections, g⟩
    else .error .badTopologyType

/-- Breadth-first search for a shortest path, modelling
`nx.shortest_path` on an unweighted graph: the queue holds reversed
paths, expanded in FIFO order with neighbors in adjacency order. -/
def bfsAux (g : EdgeList) (t : Int) :
    Nat → List (List Int) → List Int → Option (List Int)
  | 0, _, _ => none
  | _ + 1, [], _ => none
  | fuel + 1, path :: queue, visited =>
    let cur := path.headD 0
    if cur = t then some path.reverse
    else if cur ∈ visited then bfsAux g t fuel queue visited
    else
      bfsAux g t fuel
        (queue ++ ((neighbors g cur).filter (¬ · ∈ visited)).map (fun n => n :: path))
        (visited ++ [cur])

/-- Shortest path from `s` to `t`, `none` when no path exists
(`nx.NetworkXNoPath`). -/
def shortestPath (g : EdgeList) (s t : Int) : Option (List Int) :=
  let n := (graphNodes g).length
  bfsAux g t ((n + 1) * (n + 1) + 1) [[s]] []

/-- `QPUTopology.swaps(instruction, isa)`: pass through one-qubit
instructions, `measure` and `reset`; reject other arities; route
two-qubit instructions along a shortest path, sandwiching the routed
copy between SWAPs outward and their reversal. -/
def topologySwaps (g : EdgeList) (instruction : Instruction F) :
    Except PyErr (List (Instruction F)) :=
  let targets := instruction.target_qubits.getD []
  let controls := instruction.control_qubits.getD []
  let all_qubits := controls ++ targets
  if all_qubits.length = 1 ∨ instruction.symbol = "measure" ∨
     instruction.symbol = "reset" then
    .ok [instruction]
  else if all_qubits.length ≠ 2 ∧ instruction.symbol ≠ "measure" then
    .error .malformedInstruction
  else
    let q0 := all_qubits.getD 0 0
    let q1 := all_qubits.getD 1 0
    if hasEdge g q0 q1 then .ok [instruction]
    else
      match shortestPath g q0 q1 with
      | none => .error (.qubitsNotConnected q0 q1)
      | some path =>
        let preSwaps := (List.range (path.length - 2)).map fun i =>
          isaSwap (F := F) (path.getD i 0) (path.getD (i + 1) 0)
        let routed_q0 := path.getD (path.length - 2) 0
        let routed_q1 := path.getLastD 0
        let routed : Instruction F :=
          { symbol := instruction.symbol
            modifies_state := instruction.modifies_state
            is_controlled := instruction.is_controlled
            target_qubits := some [if q1 ∈ targets then routed_q1 else routed_q0]
            control_qubits := some [if q0 ∈ controls then routed_q0 else routed_q1]
            parameters := instruction.parameters
            shots := instruction.shots }
        let postSwaps := ((List.range (path.length - 2)).reverse).map fun i =>
          isaSwap (F := F) (path.getD i 0) (path.getD (i + 1) 0)
        .ok (preSwaps ++ [routed] ++ postSwaps)

/-! ## Native transpilation (mach/sets/xyisqswap.py, `XYiSW`)

Table entries are `(native_symbol, params_override_or_None, route_tag)`.
`numpy.pi` is the parameter `pi`; a `some []` override mirrors a Python
`[]` entry (which, being not `None`, is used as-is), while `none` mirrors
`None` (inherit the instruction's parameters). -/

/-- `XYiSW._table`, transcribed row by row. -/
def xyiswTable [Field F] (pi : F) :
    List (String × List (String × Option (List F) × String)) :=
  [ ("nop", [("nop", some [], ".")]),
    ("x", [("rx", some [pi], ".")]),
    ("y", [("ry", some [pi], ".")]),
    ("z", [("ry", some [-(pi / 2)], "."), ("rx", some [pi], "."),
           ("ry", some [pi / 2], ".")]),
    ("h", [("ry", some [pi / 2], "."), ("rx", some [pi], ".")]),
    ("s", [("ry", some [-(pi / 2)], "."), ("rx", some [pi / 2], "."),
           ("ry", some [pi / 2], ".")]),
    ("sdg", [("ry", some [-(pi / 2)], "."), ("rx", some [-(pi / 2)], "."),
             ("ry", some [pi / 2], ".")]),
    ("t", [("ry", some [-(pi / 2)], "."), ("rx", some [pi / 4], "."),
           ("ry", some [pi / 2], ".")]),
    ("tdg", [("ry", some [-(pi / 2)], "."), ("rx", some [-(pi / 4)], "."),
             ("ry", some [pi / 2], ".")]),
    ("p", [("ry", some [-(pi / 2)], "."), ("rx", none, "."),
           ("ry", some [pi / 2], ".")]),
    ("rx", [("rx", none, ".")]),
    ("ry", [("ry", none, ".")]),
    ("rz", [("ry", some [-(pi / 2)], "."), ("rx", none, "."),
            ("ry", some [pi / 2], ".")]),
    ("phase", [("ry", some [-(pi / 2)], "."), ("rx", none, "."),
               ("ry", some [pi / 2], ".")]),
    ("swap", [("rx", some [pi / 2], "c"), ("ry", some [pi / 2], "t"),
              ("sqiswap", some [], "*"),
              ("rx", some [-(pi / 2)], "c"), ("ry", some [-(pi / 2)], "t"),
              ("sqiswap", some [], "*"),
              ("rx", some [pi / 2], "c"), ("ry", some [pi / 2], "t"),
              ("sqiswap", some [], "*")]),
    ("cx", [("ry", some [-(pi / 2)], "t"), ("sqiswap", some [], "*"),
            ("rx", some [-(pi / 2)], "c"), ("sqiswap", some [], "*"),
            ("ry", some [pi / 2], "t")]),
    ("cy", [("rx", some [-(pi / 2)], "t"), ("ry", some [-(pi / 2)], "t"),
            ("sqiswap", some [], "*"), ("rx", some [-(pi / 2)], "c"),
            ("sqiswap", some [], "*"), ("ry", some [pi / 2], "t"),
            ("rx", some [pi / 2], "t")]),
    ("cz", [("ry", some [pi / 2], "t"), ("rx", some [pi], "t"),
            ("ry", some [-(pi / 2)], "t"), ("sqiswap", some [], "*"),
            ("rx", some [-(pi / 2)], "c"), ("sqiswap", some [], "*"),
            ("ry", some [pi / 2], "t"), ("ry", some [pi / 2], "t"),
            ("rx", some [pi], "t")]),
    ("ch", [("ry", some [-(pi / 2)], "t"), ("sqiswap", some [], "*"),
            ("rx", some [-(pi / 2)], "c"), ("sqiswap", some [], "*"),
            ("ry", some [pi / 2], "t")]),
    ("cp", [("ry", some [pi / 2], "t"), ("rx", some [pi / 2], "t"),
            ("ry", some [-(pi / 2)], "t"), ("sqiswap", some [], "*"),
            ("rx", some [-(pi / 2)], "c"), ("sqiswap", some [], "*"),
            ("ry", some [pi / 2], "t"), ("rx", none, "t"),
            ("ry", some [-(pi / 2)], "t"), ("sqiswap", some [], "*"),
            ("rx", some [-(pi / 2)], "c"), ("sqiswap", some [], "*"),
            ("ry", some [pi / 2], "t"), ("rx", some [-(pi / 2)], "t"),
            ("ry", some [-(pi / 2)], "t")]),
    ("crx", [("ry", some [pi / 2], "t"), ("ry", some [-(pi / 2)], "t"),
             ("sqiswap", some [], "*"), ("rx", some [-(pi / 2)], "c"),
             ("sqiswap", some [], "*"), ("ry", some [pi / 2], "t"),
             ("rx", none, "t"), ("ry", some [-(pi / 2)], "t"),
             ("sqiswap", some [], "*"), ("rx", some [-(pi / 2)], "c"),
             ("sqiswap", some [], "*"), ("ry", some [pi / 2], "t"),
             ("ry", some [-(pi / 2)], "t")]),
    ("cry", [("rx", some [pi], "t"), ("ry", none, "t"),
             ("ry", some [-(pi / 2)], "t"), ("sqiswap", some [], "*"),
             ("rx", some [-(pi / 2)], "c"), ("sqiswap", some [], "*"),
             ("ry", some [pi / 2], "t"), ("ry", none, "t"),
             ("rx", some [pi], "t")]),
    ("crz", [("ry", some [-(pi / 2)], "t"), ("sqiswap", some [], "*"),
             ("rx", some [-(pi / 2)], "c"), ("sqiswap", some [], "*"),
             ("ry", some [pi / 2], "t"), ("ry", some [-(pi / 2)], "t"),
             ("rx", none, "t"), ("ry", some [pi / 2], "t"),
             ("ry", some [-(pi / 2)], "t"), ("sqiswap", some [], "*"),
             ("rx", some [-(pi / 2)], "c"), ("sqiswap", some [], "*"),
             ("ry", some [pi / 2], "t")]),
    ("cphase", [("ry", some [pi / 2], "t"), ("rx", some [pi / 2], "t"),
                ("ry", some [-(pi / 2)], "t"), ("sqiswap", some [], "*"),
                ("rx", some [-(pi / 2)], "c"), ("sqiswap", some [], "*"),
                ("ry", some [pi / 2], "t"), ("rx", none, "t"),
                ("ry", some [-(pi / 2)], "t"), ("sqiswap", some [], "*"),
                ("rx", some [-(pi / 2)], "c"), ("sqiswap", some [], "*"),
                ("ry", some [pi / 2], "t"), ("rx", some [-(pi / 2)], "t"),
                ("ry", some [-(pi / 2)], "t")]) ]

/-- The inner `gate` closure of `XYiSW._synthesize`: route tags select
the operands of the emitted gate; an unsupported tag raises
`ValueError`; a `None` params entry inherits the instruction's
parameters. -/
def synthesizeGate (instruction : Instruction F) (symbol : String)
    (params : Option (List F)) (route : String) : Except PyErr (Gate F) :=
  if route = "." ∨ route = "t" then
    .ok { symbol := symbol
          target_qubits := instruction.target_qubits
          control_qubits := none
          params := match params with
                    | some l => some l
                    | none => instruction.parameters }
  else if route = "c" then
    .ok { symbol := symbol
          target_qubits := instruction.control_qubits
          control_qubits := none
          params := match params with
                    | some l => some l
                    | none => instruction.parameters }
  else if route = "*" then
    .ok { symbol := symbol
          target_qubits := instruction.target_qubits
          control_qubits := instruction.control_qubits
          params := match params with
                    | some l => some l
                    | none => instruction.parameters }
  else if route = "+" then
    .ok { symbol := symbol
          target_qubits := instruction.control_qubits
          control_qubits := instruction.target_qubits
          params := match params with
                    | some l => some l
                    | none => instruction.parameters }
  else
    .error .valueError

/-- `XYiSW.transpile_gate`: bare dictionary indexing
`self._table[instruction.symbol]` — a symbol outside the table raises
`KeyError`, not `UnknownInstruction` — then the per-entry gate maker. -/
def transpileGate [Field F] (pi : F) (instruction : Instruction F) :
    Except PyErr (List (Gate F)) :=
  match (xyiswTable pi).lookup instruction.symbol with
  | none => .error (.keyError instruction.symbol)
  | some entries =>
    entries.mapM fun e => synthesizeGate instruction e.1 e.2.1 e.2.2

/-! ## OpenQASM 3.0 emission (arch/synth/qasm.py) -/

/-- `QASMSynthesizer.gate_map` in source insertion order; note the
absence of `nop`. -/
def qasmGateMap : List (String × String) :=
  [ ("x", "x"), ("y", "y"), ("z", "z"), ("h", "h"),
    ("s", "s"), ("sdg", "sdg"), ("t", "t"), ("tdg", "tdg"),
    ("rx", "rx"), ("ry", "ry"), ("rz", "rz"), ("p", "p"),
    ("phase", "phase"), ("u2", "u2"), ("u3", "u3"),
    ("cx", "cx"), ("cy", "cy"), ("cz", "cz"), ("ch", "ch"),
    ("cp", "cp"), ("crx", "crx"), ("cry", "cry"),
    ("crz", "crz"), ("cphase", "cphase"), ("cu", "cu"),
    ("swap", "swap"),
    ("measure", "measure"),
    ("reset", "reset") ]

/-- `QASMSynthesizer.synth_instruction`.  `fmt` models Python's
`f"{p:.10g}"` float rendering.  An unmapped symbol raises
`UnknownInstruction`; `measure` without targets raises
`MalformedInstruction`.  A `None` or empty parameter list is falsy in
Python, so no parenthesized parameter list is rendered then. -/
def synthInstruction (fmt : F → String) (instr : Instruction F) :
    Except PyErr String :=
  match qasmGateMap.lookup instr.symbol with
  | none => .error .unknownInstruction
  | some qasm_op =>
    let tgs := (instr.target_qubits.getD []).map fun q =>
      "q[" ++ toString q ++ "]"
    let cts := (instr.control_qubits.getD []).map fun c =>
      "q[" ++ toString c ++ "]"
    let qubit_args := cts ++ tgs
    let gate_call :=
      match instr.parameters with
      | some ps =>
        if ps.isEmpty then qasm_op
        else qasm_op ++ "(" ++ String.intercalate ", " (ps.map fmt) ++ ")"
      | none => qasm_op
    if instr.symbol = "measure" then
      if tgs.isEmpty then .error .malformedInstruction
      else
        .ok (String.intercalate "\n" (tgs.enum.map fun p =>
          "measure " ++ p.2 ++ " -> c[" ++ toString p.1 ++ "];"))
    else if instr.symbol = "reset" then
      .ok (String.intercalate "\n" (tgs.map fun q => "reset " ++ q ++ ";"))
    else
      .ok (gate_call ++ " " ++ String.intercalate " , " qubit_args ++ ";")

/-! ## State preparation (lang/preparation.py)

Complex amplitudes are embedded as pairs `F × F`; the numpy operations
`abs` (complex modulus), `sqrt`, `arctan2`, `angle` and the polar
constructor `r * exp(1j * gamma)` are taken as parameters `cabs`,
`csqrt`, `atan2`, `carg`, `mkpolar`, so the theorems hold for the IEEE
implementations as one instantiation.  The float literal `1e-15` is the
field value `1 / 10 ^ 15`. -/

/-- The `1e-15` tolerance used throughout the preparation module. -/
def tol [LinearOrderedField F] : F := 1 / 10 ^ 15

/-- `_ucr(isa, gate_type, target, controls, angles)` — recursive
multiplexor decomposition of a uniformly controlled rotation.  The
rotation builder is `getattr(isa, gate_type)` with
`gate_type ∈ {"ry","rz"}`, i.e. the `sq_par_gates` builder body. -/
def ucr [LinearOrderedField F] (gate_type : String) (target : Int)
    (controls : List Int) (angles : List F) : List (Instruction F) :=
  if angles.all (fun a => |a| < tol) then []
  else if hc : controls = [] then
    [sqParGate gate_type target (some [angles.headD 0])]
  else
    let half := angles.length / 2
    let alpha := (List.range half).map fun j =>
      (angles.getD j 0 + angles.getD (j + half) 0) / 2
    let beta := (List.range half).map fun j =>
      (angles.getD j 0 - angles.getD (j + half) 0) / 2
    ucr gate_type target controls.dropLast alpha
      ++ [tqcNoparGate "cx" (controls.getLastD 0) target]
      ++ ucr gate_type target controls.dropLast beta
      ++ [tqcNoparGate "cx" (controls.getLastD 0) target]
termination_by controls.length
decreasing_by
  all_goals
    simp only [List.length_dropLast]
    have h := List.length_pos.mpr hc
    omega

/-- One iteration of the inner pairing loop of `prepare_state` (for a
pair `(c, c + half)` of active amplitudes): compute the Ry/Rz angles
and disentangle the bit-`k` partner in `omega`. -/
def phase1Step [LinearOrderedField F] (cabs : F × F → F) (csqrt : F → F)
    (atan2 : F → F → F) (carg : F × F → F) (mkpolar : F → F → F × F)
    (half : Nat) (acc : List F × List F × List (F × F)) (c : Nat) :
    List F × List F × List (F × F) :=
  let ry_angles := acc.1
  let rz_angles := acc.2.1
  let omega := acc.2.2
  let i0 := c
  let i1 := c + half
  let a0 := omega.getD i0 (0, 0)
  let a1 := omega.getD i1 (0, 0)
  let r0 := cabs a0
  let r1 := cabs a1
  let r := csqrt (r0 ^ 2 + r1 ^ 2)
  let theta := if tol < r then 2 * atan2 r1 r0 else 0
  let phi := if tol < r0 ∧ tol < r1 then carg a1 - carg a0 else 0
  let omega :=
    if tol < r then
      let gamma := (carg a0 + carg a1) / 2
      (omega.set i0 (mkpolar r gamma)).set i1 (0, 0)
    else omega
  (ry_angles ++ [theta], rz_angles ++ [phi], omega)

/-- Phase 1 of `prepare_state`: for `k = n−1` down to `0`, pair the
active amplitudes and collect `(k, ry_angles, rz_angles)` levels. -/
def phase1 [LinearOrderedField F] (cabs : F × F → F) (csqrt : F → F)
    (atan2 : F → F → F) (carg : F × F → F) (mkpolar : F → F → F × F)
    (n : Nat) (state : List (F × F)) : List (Nat × List F × List F) :=
  (((List.range n).reverse).foldl
    (fun acc k =>
      let half := 2 ^ k
      let step := (List.range half).foldl
        (phase1Step cabs csqrt atan2 carg mkpolar half) ([], [], acc.2)
      (acc.1 ++ [(k, step.1, step.2.1)], step.2.2))
    (([], state) : List (Nat × List F × List F) × List (F × F))).1

/-- `prepare_state(isa, target, state=..., endianness=...)`: validate the
vector length and norm, normalize, then emit the reversed level list as
uniformly controlled Ry (and, when some phase is non-negligible, Rz)
rotations via `_ucr`. -/
def prepareState [LinearOrderedField F] (cabs : F × F → F) (csqrt : F → F)
    (atan2 : F → F → F) (carg : F × F → F) (mkpolar : F → F → F × F)
    (target : List Int) (state : List (F × F)) (endianness : String) :
    Except PyErr (List (Instruction F)) :=
  let n := target.length
  let dim := 2 ^ n
  if state.length ≠ dim then .error .valueError
  else
    let norm := csqrt ((state.map fun a => cabs a ^ 2).sum)
    if norm < tol then .error .valueError
    else
      let state := state.map fun a => (a.1 / norm, a.2 / norm)
      let target := if endianness = "big" then target.reverse else target
      let levels := phase1 cabs csqrt atan2 carg mkpolar n state
      .ok ((levels.reverse.map fun l =>
        let controls := (List.range l.1).map fun j => target.getD j 0
        let tgt := target.getD l.1 0
        ucr "ry" tgt controls l.2.1 ++
          (if l.2.2.any (fun a => tol < |a|) then ucr "rz" tgt controls l.2.2
           else [])).flatten)

/-! ## Concrete fixtures used by the theorems -/

/-- `ISA.__circuit_instr` — the recognized circuit symbols (arch/isa.py). -/
def circuitInstrNames : List String :=
  [ "nop", "swap", "x", "y", "z", "h", "s", "sdg", "t", "tdg",
    "p", "rx", "ry", "rz", "phase", "u2", "u3",
    "cx", "cy", "cz", "ch",
    "cp", "crx", "cry", "crz", "cphase", "cu",
    "measure", "reset" ]

/-- Rational stand-in for the double `numpy.pi` when the parametric
embedding is instantiated in concrete theorems (no verified statement
depends on its value). -/
def qpi : ℚ := 3141592653589793 / 1000000000000000

/-- The linear four-qubit topology of the `route_linear` scenario. -/
def linearConfig4 : QPUConfigT :=
  { topology := "linear", qubits := [0, 1, 2, 3]
    couplings := [[0, 1], [1, 2], [2, 3]], exclusions := [] }

/-- A linear configuration whose exclusion list `[1, 3]` contains a
non-minimal index. -/
def exclConfig13 : QPUConfigT :=
  { topology := "linear", qubits := [0, 1, 2, 3]
    couplings := [[0, 1], [1, 2], [2, 3]], exclusions := [1, 3] }

/-- A five-qubit line excluding the middle qubit. -/
def exclConfigMid : QPUConfigT :=
  { topology := "linear", qubits := [0, 1, 2, 3, 4]
    couplings := [[0, 1], [1, 2], [2, 3], [3, 4]], exclusions := [2] }

/-- A linear configuration excluding the tail qubit only. -/
def exclConfigTail : QPUConfigT :=
  { topology := "linear", qubits := [0, 1, 2, 3]
    couplings := [[0, 1], [1, 2], [2, 3]], exclusions := [3] }

/-- The `x` instruction on qubit 0 used by the context theorems. -/
def xInstr : Instruction ℚ := sqNoparGate "x" 0

/-- The `x` instruction on qubit 0 with 100 shots (test-context form). -/
def xInstrShots : Instruction ℚ := sqNoparGate "x" 0 (some 100)

/-- Conjunction of the source well-formedness check, the §3 invariant
list, and the expected kind, used to state the builder claim. -/
def builderOK (i : Instruction F) (k : InstructionType) : Prop :=
  isWellFormedInstruction i = true ∧ spec3Invariants i = true ∧
    i.instruction_type = k

/-! ## Claim theorems -/

/-- C5: on the linear topology over {0,1,2,3} with couplings (0,1),
(1,2), (2,3), routing `cx` with control 0 and target 3 yields exactly
`[swap(0,1), swap(1,2), cx(2,3), swap(1,2), swap(0,1)]`, the routed `cx`
carrying `control_qubits = [2]`, `target_qubits = [3]`, and every
emitted swap storing its first operand in `control_qubits` and its
second in `target_qubits`. -/
theorem c5_route_linear_cx_0_3 :
    mkTopology linearConfig4 =
      .ok ⟨[0, 1, 2, 3], [[0, 1], [1, 2], [2, 3]], [(0, 1), (1, 2), (2, 3)]⟩ ∧
    topologySwaps (F := ℚ) [(0, 1), (1, 2), (2, 3)] (tqcNoparGate "cx" 0 3) =
      .ok [isaSwap 0 1, isaSwap 1 2,
           { symbol := "cx", modifies_state := false, is_controlled := true,
             target_qubits := some [3], control_qubits := some [2],
             parameters := none, shots := none },
           isaSwap 1 2, isaSwap 0 1] ∧
    (isaSwap (F := ℚ) 0 1).control_qubits = some [0] ∧
    (isaSwap (F := ℚ) 0 1).target_qubits = some [1] ∧
    (isaSwap (F := ℚ) 1 2).control_qubits = some [1] ∧
    (isaSwap (F := ℚ) 1 2).target_qubits = some [2] := by
  refine ⟨?_, ?_, rfl, rfl, rfl, rfl⟩ <;> rfl

/-- C1 (evaluation at the failing input): with a user exception pending,
`Circuit.__exit__` still runs the terminal pass — the classical register
absorbs the sentinel — and returns `True`, which makes Python suppress
the exception; `Test.__exit__` still dispatches every instruction to the
backend (the accumulator gains an entry) and returns the falsy `None`.
This contradicts the claim that the exception propagates with no pass
run. -/
theorem c1_exit_swallows_exception :
    circuitExit (F := ℚ) (fun i => .ok i) (fun i => .ok [i]) (fun i => .ok [i])
        (fun _ => .ok []) (fun _ _ => .ok []) 1000 2 "parsed" [xInstr]
        (some .exc) =
      .ok (true, sentinelMap 2) ∧
    testExit (F := ℚ) (R := Nat) (fun _ _ => .ok 7) [xInstrShots] []
        (some .exc) =
      .ok ([(0, 7)], false) := by
  exact ⟨rfl, rfl⟩

/-- C2 (evaluation at the failing inputs): the transpilation table has
no `measure` or `reset` row and `transpile_gate` indexes the table
directly, so those symbols — and any unknown symbol — raise `KeyError`
rather than transpiling or raising `UnknownInstruction`.  Every row the
table does have is non-empty, and an in-table symbol transpiles. -/
theorem c2_transpile_gate_gaps :
    transpileGate qpi (isaMeasure (F := ℚ) (some [0])) =
      .error (.keyError "measure") ∧
    transpileGate qpi (isaReset (F := ℚ) (some [0])) =
      .error (.keyError "reset") ∧
    transpileGate qpi { symbol := "exec_evil", target_qubits := some [0] } =
      .error (.keyError "exec_evil") ∧
    ((xyiswTable qpi).all fun e => !e.2.isEmpty) = true ∧
    transpileGate qpi (sqNoparGate (F := ℚ) "x" 0) =
      .ok [{ symbol := "rx", target_qubits := some [0],
             control_qubits := none, params := some [qpi] }] := by
  exact ⟨rfl, rfl, rfl, rfl, rfl⟩

/-- C3 (evaluation at the failing input): the append operator stores the
original instruction object, not the validated copy — `challenge`
returns a copy with kind `CIRCUIT`, but the list element keeps kind
`DELAYED` and is equal to the caller's argument.  The same happens in
the test context. -/
theorem c3_append_stores_original :
    circuitRshift [] xInstr = .ok [xInstr] ∧
    challenge xInstr .CIRCUIT =
      .ok { xInstr with instruction_type := .CIRCUIT } ∧
    ({ xInstr with instruction_type := .CIRCUIT } : Instruction ℚ) ≠ xInstr ∧
    xInstr.instruction_type = .DELAYED ∧
    testRshift [] xInstrShots = .ok [xInstrShots] ∧
    challenge xInstrShots .TEST =
      .ok { xInstrShots with instruction_type := .TEST } ∧
    ({ xInstrShots with instruction_type := .TEST } : Instruction ℚ) ≠
      xInstrShots := by
  exact ⟨rfl, rfl, by decide, rfl, rfl, rfl, by decide⟩

/-- A left fold of `min` is a lower bound of its starting value. -/
theorem foldl_min_le_init (xs : List Int) (a : Int) : xs.foldl min a ≤ a := by
  induction xs generalizing a with
  | nil => simp
  | cons x xs ih => exact le_trans (ih (min a x)) (min_le_left a x)

/-- A left fold of `min` is a lower bound of every list element. -/
theorem foldl_min_le_mem (xs : List Int) (a e : Int) (he : e ∈ xs) :
    xs.foldl min a ≤ e := by
  induction xs generalizing a with
  | nil => cases he
  | cons x xs ih =>
    rcases List.mem_cons.mp he with rfl | hxs
    · exact le_trans (foldl_min_le_init xs (min a e)) (min_le_right a e)
    · exact ih (min a x) hxs

/-- `pyMin` is a lower bound of every element of the list. -/
theorem pyMin_le (l : List Int) (e : Int) (he : e ∈ l) : pyMin l ≤ e := by
  match l with
  | x :: xs =>
    rcases List.mem_cons.mp he with rfl | hxs
    · exact foldl_min_le_init xs e
    · exact foldl_min_le_mem xs x e hxs

/-- C6 counterexample: with exclusions `[1, 3]` on the four-qubit line,
construction succeeds and keeps the coupling `[2, 3]`, which touches the
excluded index 3 — so couplings touching a non-minimal excluded index
are not dropped; and on a five-qubit line, excluding the middle qubit
leaves a disconnected coupling graph and construction raises
`BadTopologyType` — contradicting "rather than raising
BadTopologyType". -/
theorem c6_exclusion_claim_fails :
    mkTopology exclConfig13 = .ok ⟨[0], [[2, 3]], [(2, 3)]⟩ ∧
    (3 : Int) ∈ exclConfig13.exclusions ∧
    ([2, 3] : List Int) ∈ [[2, 3]] ∧
    (3 : Int) ∈ ([2, 3] : List Int) ∧
    mkTopology exclConfigMid = .error .badTopologyType := by
  exact ⟨rfl, by decide, by decide, by decide, rfl⟩

/-- C6 amended: for a linear configuration with non-empty exclusions,
every retained qubit is below every excluded index (so all indices
≥ min(excluded) are removed), the retained couplings are exactly those
not containing min(excluded) — couplings touching other excluded
indices survive — and whenever construction succeeds the graph built
from them satisfies the linear structural invariant (construction
raises `BadTopologyType` when it does not, as the counterexample
shows). -/
theorem c6_linear_exclusion_filters (cfg : QPUConfigT)
    (hlin : cfg.topology = "linear") (hex : cfg.exclusions ≠ [])
    (t : QPUTopologyR) (hok : mkTopology cfg = .ok t) :
    (∀ q ∈ t.real_qubits, ∀ e ∈ cfg.exclusions, q < e) ∧
    t.real_connections = cfg.couplings.filter (fun c => pyMin cfg.exclusions ∉ c) ∧
    testLinear t.graph = true := by
  unfold mkTopology at hok
  rw [hlin] at hok
  simp only [ne_eq, not_true_eq_false, if_false, reduceIte] at hok
  by_cases hT : testLinear (graphOfConnections (filterConnections cfg)) = true
  · rw [if_pos hT] at hok
    cases hok
    refine ⟨?_, ?_, hT⟩
    · intro q hq e he
      unfold removeExclusions at hq
      rw [if_pos hlin, if_neg hex] at hq
      have hlt := (List.mem_filter.mp hq).2
      exact lt_of_lt_of_le (by simpa using hlt) (pyMin_le _ _ he)
    · unfold filterConnections
      rw [if_neg hex]
  · rw [if_neg hT] at hok
    cases hok

/-- C6 amended, witness: excluding the tail qubit 3 of the four-qubit
line succeeds; the theorem instantiated there shows the retained qubit 0
is below the excluded index and the resulting graph passes the linear
test. -/
theorem c6_linear_exclusion_filters_witness :
    ((0 : Int) < 3) ∧ testLinear [(0, 1), (1, 2)] = true := by
  have h := c6_linear_exclusion_filters exclConfigTail rfl (by decide)
    ⟨[0, 1, 2], [[0, 1], [1, 2]], [(0, 1), (1, 2)]⟩ rfl
  exact ⟨h.1 0 (by decide) 3 (by decide), h.2.2⟩

/-- C7: whenever a circuit scope closes under a terminal pass other than
`executed` (one of the five recognized non-executed passes) without an
error, the classical register absorbs exactly the sentinel map that
assigns −1 to every fixed-width binary outcome string of its bit
width — whatever the pipeline collaborators and the instruction list
are. -/
theorem c7_nonexecuted_pass_sentinel {F : Type}
    (mapF : Instruction F → Except PyErr (Instruction F))
    (swapsF : Instruction F → Except PyErr (List (Instruction F)))
    (expandF : Instruction F → Except PyErr (List (Instruction F)))
    (transpileF : Instruction F → Except PyErr (List (Gate F)))
    (execF : PyProgram F → Int → Except PyErr (List (String × Int)))
    (shots : Int) (bit_count : Nat) (last_pass : String)
    (instrs : List (Instruction F)) (excInfo : Option UserExc)
    (ret : Bool) (data : List (String × Int))
    (hlp : last_pass = "parsed" ∨ last_pass = "mapped" ∨
           last_pass = "swapped" ∨ last_pass = "expanded" ∨
           last_pass = "transpiled")
    (h : circuitExit mapF swapsF expandF transpileF execF shots bit_count
           last_pass instrs excInfo = .ok (ret, data)) :
    data = sentinelMap bit_count := by
  rcases hlp with rfl | rfl | rfl | rfl | rfl <;>
    · unfold circuitExit handlePass at h
      repeat (any_goals split at h)
      all_goals simp_all

/-- C7 witness: a concrete close (2-bit register, `last_pass = parsed`)
leaves the register holding exactly
`{"00": −1, "01": −1, "10": −1, "11": −1}`. -/
theorem c7_nonexecuted_pass_sentinel_witness :
    ([("00", -1), ("01", -1), ("10", -1), ("11", -1)] : List (String × Int)) =
      sentinelMap 2 :=
  c7_nonexecuted_pass_sentinel (F := ℚ) (fun i => .ok i) (fun i => .ok [i])
    (fun i => .ok [i]) (fun _ => .ok []) (fun _ _ => .ok []) 1000 2 "parsed"
    [] none true _ (Or.inl rfl) (by rfl)

/-- C8 counterexample: `nop` is a recognized circuit symbol
(`ISA.__circuit_instr`) but is absent from the QASM table, so
`synth_instruction` raises `UnknownInstruction` on a `nop` instead of
emitting a line. -/
theorem c8_nop_not_emitted :
    "nop" ∈ circuitInstrNames ∧
    qasmGateMap.lookup "nop" = none ∧
    synthInstruction (F := ℚ) (fun _ => "") (isaNop (some [0])) =
      .error .unknownInstruction := by
  exact ⟨by decide, rfl, rfl⟩

/-- C8 amended: the QASM symbol table is the identity on every
recognized circuit symbol except `nop`, which it omits;
`synth_instruction` raises `UnknownInstruction` exactly for the symbols
the table does not map (so `nop` is rejected like any foreign symbol,
and mapped symbols are never rejected as unknown); and every mapped
symbol is emitted — `synth_instruction` returns a line of text for it —
with `measure` additionally requiring a non-empty target list. -/
theorem c8_qasm_table_identity_except_nop :
    (∀ s ∈ circuitInstrNames, s ≠ "nop" → qasmGateMap.lookup s = some s) ∧
    qasmGateMap.lookup "nop" = none ∧
    (∀ (F : Type) (fmt : F → String) (i : Instruction F),
      synthInstruction fmt i = .error .unknownInstruction ↔
        qasmGateMap.lookup i.symbol = none) ∧
    (∀ (F : Type) (fmt : F → String) (i : Instruction F) (op : String),
      qasmGateMap.lookup i.symbol = some op →
      (i.symbol = "measure" → i.target_qubits.getD [] ≠ []) →
      ∃ out, synthInstruction fmt i = .ok out) := by
  refine ⟨by decide, rfl, ?_, ?_⟩
  · intro F fmt i
    unfold synthInstruction
    cases hl : qasmGateMap.lookup i.symbol with
    | none => simp
    | some op =>
      simp only [Option.some_ne_none, iff_false]
      intro h
      split at h
      · split at h <;> simp_all
      · split at h <;> simp_all
  · intro F fmt i op hl hm
    simp only [synthInstruction, hl]
    split
    · rename_i hmeas
      split
      · rename_i hemp
        exfalso
        apply hm hmeas
        simpa using hemp
      · exact ⟨_, rfl⟩
    · split
      · exact ⟨_, rfl⟩
      · exact ⟨_, rfl⟩

/-- C8 amended, witness: the table maps `x` to itself, a symbol outside
the table is rejected as unknown, and a mapped symbol with targets (a
two-qubit `measure`) is emitted. -/
theorem c8_qasm_table_identity_except_nop_witness :
    qasmGateMap.lookup "x" = some "x" ∧
    synthInstruction (F := ℚ) (fun _ => "") { symbol := "foobar" } =
      .error .unknownInstruction ∧
    (∃ out, synthInstruction (F := ℚ) (fun _ => "")
      (isaMeasure (some [0, 1])) = .ok out) :=
  ⟨c8_qasm_table_identity_except_nop.1 "x" (by decide) (by decide),
   (c8_qasm_table_identity_except_nop.2.2.1 ℚ (fun _ => "")
      { symbol := "foobar" }).mpr rfl,
   c8_qasm_table_identity_except_nop.2.2.2 ℚ (fun _ => "")
      (isaMeasure (some [0, 1])) "measure" rfl (fun _ => by decide)⟩

/-- Every division in `freqLoop` succeeds when the total is non-zero,
producing exactly count/total per key. -/
theorem freqLoop_ok (d : List (String × Int)) (T : ℚ) (hT : T ≠ 0) :
    freqLoop d T = .ok (d.map fun p => (p.1, (p.2 : ℚ) / T)) := by
  induction d with
  | nil => rfl
  | cons p rest ih =>
    unfold freqLoop
    rw [show pydiv (p.2 : ℚ) T = .ok ((p.2 : ℚ) / T) by
      unfold pydiv; rw [if_neg hT]]
    rw [ih]
    rfl

/-- C10: after any absorb, `frequencies` never divides by zero — when
the counts sum to zero it returns 0.0 for every key, and otherwise it
returns count divided by the total for each key (in particular it
always succeeds). -/
theorem c10_frequencies_no_zero_division (d : List (String × Int)) :
    frequencies (some d) =
      .ok (if (d.map (·.2)).sum = 0 then d.map fun p => (p.1, (0 : ℚ))
           else d.map fun p =>
             (p.1, (p.2 : ℚ) / (((d.map (·.2)).sum : Int) : ℚ))) := by
  show (if ((d.map (·.2)).sum : Int) = 0
        then Except.ok (d.map fun p => (p.1, (0 : ℚ)))
        else freqLoop d (((d.map (·.2)).sum : Int) : ℚ)) = _
  by_cases h : (d.map (·.2)).sum = 0
  · rw [if_pos h, if_pos h]
  · rw [if_neg h, if_neg h]
    exact freqLoop_ok d _ (by exact_mod_cast h)

/-- A single-qubit non-parametric builder output is well-formed with
kind `DELAYED` for a non-empty symbol, non-negative target and positive
shots when given. -/
theorem builderOK_sqNopar (name : String) (hn : name ≠ "") (tg : Int)
    (htg : 0 ≤ tg) (sh : Option Int) (hsh : ∀ x ∈ sh, 0 < x) :
    builderOK (sqNoparGate (F := F) name tg sh) .DELAYED := by
  cases sh with
  | none =>
    exact ⟨by simp [isWellFormedInstruction, sqNoparGate, hn, htg],
           by simp [spec3Invariants, sqNoparGate, htg], rfl⟩
  | some v =>
    have hv := hsh v (by simp)
    exact ⟨by simp [isWellFormedInstruction, sqNoparGate, hn, htg, hv],
           by simp [spec3Invariants, sqNoparGate, htg, hv], rfl⟩

/-- A single-qubit parametric builder output is well-formed with kind
`DELAYED` under the same argument hypotheses. -/
theorem builderOK_sqPar (name : String) (hn : name ≠ "") (tg : Int)
    (htg : 0 ≤ tg) (ps : Option (List F)) (sh : Option Int)
    (hsh : ∀ x ∈ sh, 0 < x) :
    builderOK (sqParGate name tg ps sh) .DELAYED := by
  cases sh with
  | none =>
    exact ⟨by simp [isWellFormedInstruction, sqParGate, hn, htg],
           by simp [spec3Invariants, sqParGate, htg], rfl⟩
  | some v =>
    have hv := hsh v (by simp)
    exact ⟨by simp [isWellFormedInstruction, sqParGate, hn, htg, hv],
           by simp [spec3Invariants, sqParGate, htg, hv], rfl⟩

/-- A controlled non-parametric builder output is well-formed with kind
`DELAYED` when control and target are non-negative and distinct. -/
theorem builderOK_tqcNopar (name : String) (hn : name ≠ "") (ct tg : Int)
    (hct : 0 ≤ ct) (htg : 0 ≤ tg) (hne : ct ≠ tg) (sh : Option Int)
    (hsh : ∀ x ∈ sh, 0 < x) :
    builderOK (tqcNoparGate (F := F) name ct tg sh) .DELAYED := by
  cases sh with
  | none =>
    exact ⟨by simp [isWellFormedInstruction, tqcNoparGate, hn, htg, hct, hne],
           by simp [spec3Invariants, tqcNoparGate, htg, hct, Ne.symm hne], rfl⟩
  | some v =>
    have hv := hsh v (by simp)
    exact ⟨by simp [isWellFormedInstruction, tqcNoparGate, hn, htg, hct, hne, hv],
           by simp [spec3Invariants, tqcNoparGate, htg, hct, Ne.symm hne, hv], rfl⟩

/-- A controlled parametric builder output is well-formed with kind
`DELAYED` under the same argument hypotheses. -/
theorem builderOK_tqcPar (name : String) (hn : name ≠ "") (ct tg : Int)
    (hct : 0 ≤ ct) (htg : 0 ≤ tg) (hne : ct ≠ tg) (ps : Option (List F))
    (sh : Option Int) (hsh : ∀ x ∈ sh, 0 < x) :
    builderOK (tqcParGate name ct tg ps sh) .DELAYED := by
  cases sh with
  | none =>
    exact ⟨by simp [isWellFormedInstruction, tqcParGate, hn, htg, hct, hne],
           by simp [spec3Invariants, tqcParGate, htg, hct, Ne.symm hne], rfl⟩
  | some v =>
    have hv := hsh v (by simp)
    exact ⟨by simp [isWellFormedInstruction, tqcParGate, hn, htg, hct, hne, hv],
           by simp [spec3Invariants, tqcParGate, htg, hct, Ne.symm hne, hv], rfl⟩

/-- A test builder output is well-formed with kind `TEST` for a
non-empty non-negative target list and positive shots. -/
theorem builderOK_test (name : String) (hn : name ≠ "") (tgs : List Int)
    (htgs : tgs ≠ []) (htgsnn : ∀ q ∈ tgs, 0 ≤ q) (ps : Option (List F))
    (s : Int) (hs : 0 < s) :
    builderOK (testGate name (some tgs) ps (some s)) .TEST := by
  refine ⟨?_, ?_, rfl⟩
  · simp [isWellFormedInstruction, testGate, hn, hs, htgs]
    exact htgsnn
  · simp [spec3Invariants, testGate, hs]
    exact htgsnn

/-- C4: every ISA builder, applied to well-formed arguments, produces an
instruction that passes the source well-formedness check and satisfies
the §3 invariant list, with the kind the spec assigns: `DELAYED` for the
ordinary gate builders, `swap`, `nop` and `reset`; `CIRCUIT` for
`measure`; `QPUSTATE` for `ftol`; `TEST` for the test builders. -/
theorem c4_builders_well_formed (F : Type) (tg ct : Int) (sh : Option Int)
    (ps : Option (List F)) (tgs : List Int) (s : Int) (th : F)
    (htg : 0 ≤ tg) (hct : 0 ≤ ct) (hne : ct ≠ tg)
    (hsh : ∀ x ∈ sh, 0 < x) (htgs : tgs ≠ []) (htgsnn : ∀ q ∈ tgs, 0 ≤ q)
    (hs : 0 < s) :
    (∀ name ∈ sqNoparNames,
      builderOK (sqNoparGate (F := F) name tg sh) .DELAYED) ∧
    (∀ name ∈ sqParNames, builderOK (sqParGate name tg ps sh) .DELAYED) ∧
    (∀ name ∈ tqcNoparNames,
      builderOK (tqcNoparGate (F := F) name ct tg sh) .DELAYED) ∧
    (∀ name ∈ tqcParNames, builderOK (tqcParGate name ct tg ps sh) .DELAYED) ∧
    (∀ name ∈ testNames,
      builderOK (testGate name (some tgs) ps (some s)) .TEST) ∧
    builderOK (isaSwap (F := F) ct tg) .DELAYED ∧
    builderOK (isaNop (F := F) (some tgs)) .DELAYED ∧
    builderOK (isaMeasure (F := F) (some tgs)) .CIRCUIT ∧
    builderOK (isaReset (F := F) (some tgs)) .DELAYED ∧
    builderOK (isaFtol th) .QPUSTATE := by
  refine ⟨?_, ?_, ?_, ?_, ?_, ?_, ?_, ?_, ?_, ?_⟩
  · intro name hname
    exact builderOK_sqNopar name (by fin_cases hname <;> decide) tg htg sh hsh
  · intro name hname
    exact builderOK_sqPar name (by fin_cases hname <;> decide) tg htg ps sh hsh
  · intro name hname
    exact builderOK_tqcNopar name (by fin_cases hname <;> decide) ct tg hct htg
      hne sh hsh
  · intro name hname
    exact builderOK_tqcPar name (by fin_cases hname <;> decide) ct tg hct htg
      hne ps sh hsh
  · intro name hname
    exact builderOK_test name (by fin_cases hname <;> decide) tgs htgs htgsnn
      ps s hs
  · exact ⟨by simp [isWellFormedInstruction, isaSwap, htg, hct],
           by simp [spec3Invariants, isaSwap, htg, hct, Ne.symm hne], rfl⟩
  · exact ⟨by simp [isWellFormedInstruction, isaNop, htgs]; exact htgsnn,
           by simp [spec3Invariants, isaNop]; exact htgsnn, rfl⟩
  · exact ⟨by simp [isWellFormedInstruction, isaMeasure, htgs]; exact htgsnn,
           by simp [spec3Invariants, isaMeasure]; exact htgsnn, rfl⟩
  · exact ⟨by simp [isWellFormedInstruction, isaReset, htgs]; exact htgsnn,
           by simp [spec3Invariants, isaReset]; exact htgsnn, rfl⟩
  · exact ⟨by simp [isWellFormedInstruction, isaFtol],
           by simp [spec3Invariants, isaFtol], rfl⟩

/-- C4 witness: the theorem instantiated at concrete arguments — `x` on
qubit 0 is well-formed and `DELAYED`, `measure [0]` is `CIRCUIT`,
`ftol(1/2)` is `QPUSTATE`, and the `resfreq` test builder yields `TEST`. -/
theorem c4_builders_well_formed_witness :
    builderOK (sqNoparGate (F := ℚ) "x" 0 none) .DELAYED ∧
    builderOK (isaMeasure (F := ℚ) (some [0])) .CIRCUIT ∧
    builderOK (isaFtol (1 / 2 : ℚ)) .QPUSTATE ∧
    builderOK (testGate (F := ℚ) "resfreq" (some [0]) none (some 100)) .TEST := by
  have h := c4_builders_well_formed ℚ 0 1 none none [0] 100 (1 / 2)
    (by decide) (by decide) (by decide) (by simp) (by decide)
    (by decide) (by decide)
  exact ⟨h.1 "x" (by decide), h.2.2.2.2.2.2.2.1,
         h.2.2.2.2.2.2.2.2.2, h.2.2.2.2.1 "resfreq" (by decide)⟩

/-- Every instruction emitted by `_ucr` is either the requested rotation
or a `cx`, at every level of the recursion (strong induction on the
number of controls). -/
theorem ucr_symbols {F : Type} [LinearOrderedField F] :
    ∀ (n : Nat) (gt : String) (target : Int) (controls : List Int)
      (angles : List F), controls.length ≤ n →
      ∀ i ∈ ucr gt target controls angles,
        i.symbol = gt ∨ i.symbol = "cx" := by
  intro n
  induction n with
  | zero =>
    intro gt target controls angles hlen i hi
    rw [ucr] at hi
    split at hi
    · cases hi
    · split at hi
      · rcases List.mem_singleton.mp hi with rfl
        exact Or.inl rfl
      · rename_i hc
        exact absurd (List.length_eq_zero.mp (Nat.le_zero.mp hlen)) hc
  | succ n ih =>
    intro gt target controls angles hlen i hi
    rw [ucr] at hi
    split at hi
    · cases hi
    · split at hi
      · rcases List.mem_singleton.mp hi with rfl
        exact Or.inl rfl
      · rename_i hc
        have hd : controls.dropLast.length ≤ n := by
          have h1 := List.length_dropLast controls
          have h2 := List.length_pos.mpr hc
          omega
        simp only [List.mem_append, List.mem_singleton] at hi
        rcases hi with ((h1 | h2) | h3) | h4
        · exact ih gt target _ _ hd i h1
        · subst h2; exact Or.inr rfl
        · exact ih gt target _ _ hd i h3
        · subst h4; exact Or.inr rfl

/-- C9: whenever `prepare_state` succeeds — the target list has length
n, the amplitude vector length 2^n, and its norm clears the 1e−15
zero-norm guard — every emitted instruction is an `ry`, `rz` or `cx`,
through every level of the `_ucr` recursion; this holds for every
interpretation of the floating-point operations. -/
theorem c9_prepare_state_gate_set {F : Type} [LinearOrderedField F]
    (cabs : F × F → F) (csqrt : F → F) (atan2 : F → F → F)
    (carg : F × F → F) (mkpolar : F → F → F × F)
    (target : List Int) (state : List (F × F)) (endianness : String)
    (l : List (Instruction F))
    (h : prepareState cabs csqrt atan2 carg mkpolar target state endianness =
          .ok l) :
    ∀ i ∈ l, i.symbol = "ry" ∨ i.symbol = "rz" ∨ i.symbol = "cx" := by
  intro i hi
  unfold prepareState at h
  simp only [ne_eq] at h
  repeat (any_goals split at h)
  any_goals cases h
  all_goals
      rcases List.mem_flatten.mp hi with ⟨chunk, hchunk, hic⟩
      rcases List.mem_map.mp hchunk with ⟨lev, _, rfl⟩
      rcases List.mem_append.mp hic with h1 | h2
      · rcases ucr_symbols _ "ry" _ _ _ le_rfl i h1 with hs | hs
        · exact Or.inl hs
        · exact Or.inr (Or.inr hs)
      · by_cases hany : lev.2.2.any (fun a => tol < |a|) = true
        · rw [if_pos hany] at h2
          rcases ucr_symbols _ "rz" _ _ _ le_rfl i h2 with hs | hs
          · exact Or.inr (Or.inl hs)
          · exact Or.inr (Or.inr hs)
        · rw [if_neg hany] at h2
          cases h2

/-- C9 witness: the theorem applied to a concrete run — preparing the
state (0, 1) on one target with concrete interpretations of the float
operations yields the singleton `ry` list, whose element's symbol is in
the allowed set. -/
theorem c9_prepare_state_gate_set_witness :
    (sqParGate (F := ℚ) "ry" 0 (some [4])).symbol = "ry" ∨
    (sqParGate (F := ℚ) "ry" 0 (some [4])).symbol = "rz" ∨
    (sqParGate (F := ℚ) "ry" 0 (some [4])).symbol = "cx" := by
  have h : prepareState (fun p => p.1 + p.2) id (fun a b => a + b + 1)
      (fun _ => 0) (fun r _ => (r, 0)) [0] [((0 : ℚ), (0 : ℚ)), (1, 0)]
      "little" = Except.ok [sqParGate "ry" 0 (some [4])] := by
    have hucr : ucr "ry" 0 ([] : List Int) [(4 : ℚ)] =
        [sqParGate "ry" 0 (some [4])] := by
      rw [ucr]
      norm_num [tol]
    have hphase : phase1 (F := ℚ) (fun p => p.1 + p.2) id (fun a b => a + b + 1)
        (fun _ => 0) (fun r _ => (r, 0)) 1 [(0, 0), (1, 0)] = [(0, [4], [0])] := by
      norm_num [phase1, phase1Step, tol, List.range_succ, List.range_zero,
        List.getD, -Prod.mk_zero_zero]
    unfold prepareState
    norm_num [tol, hphase, hucr, List.range_zero, List.getD, -Prod.mk_zero_zero]
  exact c9_prepare_state_gate_set _ _ _ _ _ _ _ _ _ h
    (sqParGate "ry" 0 (some [4])) (by simp)

end LCCFQ
